import Mathlib

/-!
Verification development for the `outrider` deployment pipeline
(`src/outrider/...`).  Each Python function that a claim touches is given a
shallow embedding as an executable Lean definition; external effects (the
SFTP/SSH layer, the local filesystem, the container runtime) appear as
explicit environment values describing the outcome the external world would
produce, and the function bodies are transcribed from the Python sources.
-/

namespace Outrider

/-! ## Transport data model (transport/base.py)

`RemoteHost` carries host, user, port and the per-target `ssh_options`
dictionary; of that dictionary only the `port` override is relevant to the
session-cache key resolution in `ssh.py`, so it is the field modelled here. -/

structure RemoteHost where
  host : String
  user : String
  port : Nat
  sshOptionsPort : Option Nat := none
  deriving Repr, DecidableEq

/-- Log records emitted through the `logging` module; only the level and the
message text matter to the claims. -/
inductive LogEvent where
  | debugMsg (msg : String)
  | infoMsg (msg : String)
  | warningMsg (msg : String)
  | errorMsg (msg : String)
  deriving Repr, DecidableEq

/-! ## SSHTransport.file_exists_remote (transport/ssh.py lines 228-250)

The body stats the remote path inside a nested try: an `IOError` from
`sftp.stat` (file absent) returns `False` silently, while any exception from
`_get_client` / `open_sftp` (a connection-level failure) is caught by the
outer handler, which logs a debug message and returns `False`.  The
environment states which of the three outcomes the remote world produces. -/

inductive StatOutcome where
  | found
  | ioError
  deriving Repr, DecidableEq

inductive ExistsEnv where
  | statResult (o : StatOutcome)
  | connFailure (msg : String)
  deriving Repr, DecidableEq

/-- Embedding of `SSHTransport.file_exists_remote`.  The function is total
(the Python body catches every exception), returning the boolean result
together with the log records it emits. -/
def file_exists_remote : ExistsEnv → Bool × List LogEvent
  | .statResult .found => (true, [])
  | .statResult .ioError => (false, [])
  | .connFailure m =>
      (false, [.debugMsg ("Error checking if remote file exists: " ++ m)])

/-! ## SSHTransport.transfer_file (transport/ssh.py lines 252-299)

Environment fields follow the body in order: the outcome of the
`file_exists_remote` pre-check (consulted only under `skip_if_exists`),
whether `_get_client`/`open_sftp` succeed, whether `sftp.stat(remote_dir)`
finds the parent directory, whether `sftp.makedirs` and `sftp.put` complete.
`localContent`/`remoteContent` stand for the bytes of the local file and of
whatever is already at the remote path; the source never compares them, and
they are carried so that content-independence can be stated. -/

structure TransferEnv where
  existsCheck : ExistsEnv
  connectOk : Bool
  remoteDirPresent : Bool
  makedirsOk : Bool
  putOk : Bool
  localContent : List Nat
  remoteContent : List Nat
  deriving Repr, DecidableEq

/-- Write operations issued against the remote host by `transfer_file`. -/
inductive WriteOp where
  | makedirs (dir : String)
  | put (localPath remotePath : String)
  deriving Repr, DecidableEq

/-- Embedding of Python `os.path.dirname` (posixpath): everything up to the
last slash, with trailing slashes stripped unless the head is all slashes. -/
def pyDirname (p : String) : String :=
  let headRev := p.toList.reverse.dropWhile (fun c => c ≠ '/')
  if headRev.isEmpty then ""
  else if headRev.all (fun c => c = '/') then String.mk headRev.reverse
  else String.mk ((headRev.dropWhile (fun c => c = '/')).reverse)

/-- Embedding of `SSHTransport.transfer_file`.  Returns the boolean result
and the list of write operations issued, in order.  An exception anywhere in
the body is caught by the enclosing handler and turned into `false`, so the
function is total; a failing `makedirs` aborts before `put`, and a failing
`put` still counts as an attempted write.  The `progress_callback` argument
only forwards byte counts to the caller and issues no writes, so it is not
modelled. -/
def transfer_file (env : TransferEnv) (localPath : String) (_rh : RemoteHost)
    (remotePath : String) (skip_if_exists : Bool) : Bool × List WriteOp :=
  if skip_if_exists && (file_exists_remote env.existsCheck).fst then
    (true, [])
  else if !env.connectOk then
    (false, [])
  else
    let remoteDir := pyDirname remotePath
    if remoteDir != "" && !env.remoteDirPresent then
      if env.makedirsOk then
        if env.putOk then
          (true, [.makedirs remoteDir, .put localPath remotePath])
        else
          (false, [.makedirs remoteDir, .put localPath remotePath])
      else
        (false, [.makedirs remoteDir])
    else
      if env.putOk then (true, [.put localPath remotePath])
      else (false, [.put localPath remotePath])

/-! ## SSHTransport.execute_remote (transport/ssh.py lines 301-328)

The environment is the outcome of the remote execution: either the command
ran to completion (exit status plus decoded stdout/stderr) or some step —
`_get_client`, `exec_command`, channel reads — raised with a message. -/

inductive ExecEnv where
  | completed (returnCode : Int) (stdoutText stderrText : String)
  | raised (msg : String)
  deriving Repr, DecidableEq

/-- Embedding of `SSHTransport.execute_remote`.  Totality of this function is
the "never raises" property: every exception is caught and mapped to the
triple `(1, "", str(e))`; a completed command's status and decoded streams
are returned verbatim. -/
def execute_remote : ExecEnv → Int × String × String
  | .completed rc o e => (rc, o, e)
  | .raised m => (1, "", m)

/-! ## ResumeManager (transport/resume.py)

One resume record per transfer, keyed by
`sha256(f"{basename(local)}:{host}:{remote}")[:16]`.  The SHA-256 truncation
is modelled by the underlying key string itself (the code relies on the hash
being collision-free on these strings).  The store is the set of
`<key>.json` files in the resume directory, modelled as an association list;
the live local filesystem is a map from path to `(size, mtime)` (Python's
float mtimes are modelled as naturals — only equality on them is ever
used). -/

/-- Embedding of Python `os.path.basename` (posixpath): everything after the
last slash. -/
def pyBasename (p : String) : String :=
  String.mk ((p.toList.reverse.takeWhile (fun c => c ≠ '/')).reverse)

/-- One resume record, the JSON document written by `save_progress`.
`percentage` is derived from the byte counts and is never read back, so it
is not carried. -/
structure ResumeEntry where
  local_path : String
  remote_host : String
  remote_path : String
  transferred_bytes : Nat
  total_bytes : Nat
  file_size : Nat
  local_mtime : Nat
  deriving Repr, DecidableEq

/-- The resume store: key string to record, one entry per `<key>.json`. -/
abbrev ResumeStore := List (String × ResumeEntry)

/-- The local filesystem as seen through `os.path.getsize` /
`os.path.getmtime`: `none` means the path is absent (both calls raise). -/
abbrev LocalFS := String → Option (Nat × Nat)

/-- Embedding of `ResumeManager.get_resume_key` (resume.py lines 28-40); the
truncated SHA-256 is modelled by the hashed string itself. -/
def get_resume_key (localPath remoteHost remotePath : String) : String :=
  pyBasename localPath ++ ":" ++ remoteHost ++ ":" ++ remotePath

/-- Deletion of `<key>.json`, the effect of `ResumeManager.clear_progress`
(resume.py lines 128-145) on the store. -/
def eraseResumeKey (key : String) (store : ResumeStore) : ResumeStore :=
  store.filter (fun kv => kv.fst != key)

/-- Embedding of `ResumeManager.get_progress` (resume.py lines 53-92).
Returns the record (or `none`) together with the store as it stands
afterwards.  Following the body: a missing resume file returns `none`; a
raising `os.path.getsize` (local file absent) is caught by the `except`
clause and returns `none` without deleting; a size mismatch or an mtime
mismatch logs a warning, calls `clear_progress` (deleting the entry) and
returns `none`; otherwise the record is returned and the store is
untouched. -/
def get_progress (fs : LocalFS) (store : ResumeStore)
    (localPath remoteHost remotePath : String) :
    Option ResumeEntry × ResumeStore :=
  let key := get_resume_key localPath remoteHost remotePath
  match store.lookup key with
  | none => (none, store)
  | some e =>
    match fs localPath with
    | none => (none, store)
    | some (sz, mt) =>
      if e.file_size ≠ sz then (none, eraseResumeKey key store)
      else if e.local_mtime ≠ mt then (none, eraseResumeKey key store)
      else (some e, store)

/-- Embedding of `ResumeManager.save_progress` (resume.py lines 94-126): the
record written to `<key>.json` when the local file is present; when
`os.path.getsize` raises the `except` clause leaves the store unchanged. -/
def save_progress (fs : LocalFS) (store : ResumeStore)
    (localPath remoteHost remotePath : String)
    (transferred total : Nat) : ResumeStore :=
  match fs localPath with
  | none => store
  | some (sz, mt) =>
    let key := get_resume_key localPath remoteHost remotePath
    (key, { local_path := localPath, remote_host := remoteHost,
            remote_path := remotePath, transferred_bytes := transferred,
            total_bytes := total, file_size := sz, local_mtime := mt })
      :: eraseResumeKey key store

/-! ### ResumeManager.cleanup (resume.py lines 147-158)

The loop body computes `file_age_seconds = os.time.time() - ...`.  The `os`
module has no attribute `time`, so evaluating `os.time.time()` raises
`AttributeError` before any comparison or unlink; the surrounding
`try/except` catches it and logs a warning.  Consequently the first
iteration aborts the whole loop and no resume file is ever removed.  The
store here maps each `<key>.json` file to its stat mtime. -/

/-- The result of evaluating a Python expression that may raise. -/
inductive PyResult (α : Type) where
  | ok (a : α)
  | exc (msg : String)
  deriving Repr

/-- Evaluation of the expression `os.time.time()` in resume.py line 152: the
attribute lookup `os.time` raises `AttributeError` (the `os` module has no
attribute `time`). -/
def osTimeTime : PyResult Nat :=
  .exc "module 'os' has no attribute 'time'"

/-- Embedding of `ResumeManager.cleanup`.  Each pair is one resume file with
its mtime; the loop body would unlink files older than seven days, but its
first expression `os.time.time()` raises, the `except` clause catches, and
the files processed so far (none) are the only ones that could have been
removed. -/
def cleanup (files : List (String × Nat)) : List (String × Nat) :=
  match files with
  | [] => []
  | (k, mtime) :: rest =>
    match osTimeTime with
    | .exc _ => (k, mtime) :: rest
    | .ok now =>
      if now - mtime > 7 * 24 * 3600 then cleanup rest
      else (k, mtime) :: cleanup rest

/-! ## SSHTransport session cache (transport/ssh.py lines 19-57, 81-226)

`_merge_ssh_config` is modelled in its no-`~/.ssh/config` branch
(`ssh_config_parser = None`): the resolved hostname is the target's host and
the resolved port is the target's port, overridden by a per-target
`ssh_options["port"]` when present.  `_get_client` keys its cache by the
string `f"{hostname}:{port}"` built from these resolved values.

`self.clients_lock` (line 52) is held around the whole lookup / connect /
insert sequence (lines 189-226), so concurrent callers are serialized: every
interleaving of `_get_client` calls is some sequential order of atomic
calls, which is what `run_get_clients` folds over. -/

/-- Resolved hostname for the cache key (ssh.py line 113). -/
def resolvedHostname (rh : RemoteHost) : String := rh.host

/-- Resolved port for the cache key (ssh.py lines 114, 140-141). -/
def resolvedPort (rh : RemoteHost) : Nat :=
  match rh.sshOptionsPort with
  | some p => p
  | none => rh.port

/-- The session-cache key `f"{hostname}:{port}"` (ssh.py line 187). -/
def resolvedKey (rh : RemoteHost) : String :=
  resolvedHostname rh ++ ":" ++ toString (resolvedPort rh)

/-- The mutable state behind `self.clients`: the cache (key to client,
clients numbered in creation order), plus a log of the keys for which a
connection was actually established and a count of connect attempts used to
index the environment. -/
structure SSHClients where
  clients : List (String × Nat)
  nextClientId : Nat
  connLog : List String
  attempts : Nat
  deriving Repr, DecidableEq

/-- The state at `SSHTransport.__init__`: empty cache, no connections. -/
def SSHClients.init : SSHClients :=
  { clients := [], nextClientId := 0, connLog := [], attempts := 0 }

/-- Embedding of `SSHTransport._get_client` under the cache lock: a cache
hit returns the cached client untouched; on a miss, `client.connect` either
succeeds (the client is inserted and returned, the establishment logged) or
raises (the exception propagates after the error log, and nothing is
cached).  The environment gives the outcome of the n-th connect attempt for
a key. -/
def get_client (connect : Nat → String → PyResult Unit) (st : SSHClients)
    (rh : RemoteHost) : Except String Nat × SSHClients :=
  match st.clients.lookup (resolvedKey rh) with
  | some c => (.ok c, st)
  | none =>
    match connect st.attempts (resolvedKey rh) with
    | .ok _ =>
        (.ok st.nextClientId,
          { clients := (resolvedKey rh, st.nextClientId) :: st.clients,
            nextClientId := st.nextClientId + 1,
            connLog := resolvedKey rh :: st.connLog,
            attempts := st.attempts + 1 })
    | .exc m => (.error m, { st with attempts := st.attempts + 1 })

/-- A serialized run of `_get_client` calls (any thread interleaving under
`clients_lock` is one of these sequences). -/
def run_get_clients (connect : Nat → String → PyResult Unit) :
    SSHClients → List RemoteHost → List (Except String Nat) × SSHClients
  | st, [] => ([], st)
  | st, rh :: rest =>
    let step := get_client connect st rh
    let tail := run_get_clients connect step.snd rest
    (step.fst :: tail.fst, tail.snd)

/-! ## Host key policy selection (transport/ssh.py lines 194-197)

`_get_client` installs `WarningPolicy()` when `skip_host_verification` is
set and `AutoAddPolicy()` otherwise.  The behavior of paramiko's
`MissingHostKeyPolicy` classes on a host whose key is not in known-hosts is
as documented by paramiko: `AutoAddPolicy` silently accepts and stores the
key, `WarningPolicy` accepts it after logging a warning, and `RejectPolicy`
raises `SSHException`, rejecting the connection. -/

inductive HostKeyPolicy where
  | autoAddPolicy
  | warningPolicy
  | rejectPolicy
  deriving Repr, DecidableEq

/-- The policy chosen by `_get_client` (ssh.py lines 194-197). -/
def missing_host_key_policy (skip_host_verification : Bool) : HostKeyPolicy :=
  if skip_host_verification then .warningPolicy else .autoAddPolicy

/-- What happens to a connection attempt when the host's key is unknown. -/
inductive UnknownKeyDisposition where
  | acceptedSilently
  | acceptedWithWarning
  | rejected
  deriving Repr, DecidableEq

/-- paramiko's documented handling of an unknown host key under each
missing-host-key policy. -/
def unknown_host_key_disposition : HostKeyPolicy → UnknownKeyDisposition
  | .autoAddPolicy => .acceptedSilently
  | .warningPolicy => .acceptedWithWarning
  | .rejectPolicy => .rejected

/-! ## Orchestrator fan-out (core/orchestrator.py lines 159-195, 286-340)

For more than one target, `_transfer_to_target` submits one
`transfer_worker` per target to the thread pool in a dict comprehension —
every target is submitted before any result is awaited — then drains
`as_completed`, which yields every submitted future.  The worker catches
every exception and returns `(host, False)` for it, so `future.result()`
never raises and the `except` arm of the collection loop is dead.
`_execute_post_instructions` (lines 286-340) has this identical
submit-all / collect-all / conjoin structure with a different worker body;
the `outcome` environment below abstracts the body of either worker up to
its returned boolean or raised exception. -/

/-- Embedding of `transfer_worker` (orchestrator.py lines 162-174): the body
either returns a boolean (passed through as `(host, success)`) or raises
(caught, returned as `(host, False)`). -/
def transfer_worker (outcome : RemoteHost → PyResult Bool)
    (t : RemoteHost) : String × Bool :=
  match outcome t with
  | .ok b => (t.host, b)
  | .exc _ => (t.host, false)

/-- The collected `(host, success)` pairs: one per submitted target.
Completion order is nondeterministic; the list is indexed by target here,
and the aggregate below is order-independent, so any completion order gives
the same overall result. -/
def fanout_results (outcome : RemoteHost → PyResult Bool)
    (targets : List RemoteHost) : List (String × Bool) :=
  targets.map (transfer_worker outcome)

/-- The `all_success` collection loop (lines 176, 185-193): starts `True`
and conjoins each per-target success flag, with no break. -/
def fanout_all_success (outcome : RemoteHost → PyResult Bool)
    (targets : List RemoteHost) : Bool :=
  (fanout_results outcome targets).foldl (fun acc r => acc && r.snd) true

/-! ## CacheManager (core/cache.py) and Orchestrator._compress_images
(core/orchestrator.py lines 105-131)

A file on the packaging host is its byte content plus its modification
time.  The streaming SHA-256 of `CacheManager._compute_sha256` is a
function of exactly the full byte content; it is modelled by the content
value itself, i.e. as an injective digest (the code assumes SHA-256 is
collision-free in just this way). -/

structure FileState where
  content : List Nat
  mtime : Nat
  deriving Repr, DecidableEq

/-- The packaging host's filesystem as read by cache.py and
`_compress_images`: `none` means `os.path.exists` is false. -/
abbrev CacheFS := String → Option FileState

/-- The digest of `CacheManager._compute_sha256`: a function of the full
file content, modelled injectively by the content itself. -/
def sha256_file (f : FileState) : List Nat := f.content

/-- Python's code-point-lexicographic string order (the order `sorted` uses
on `str`), written out so that it evaluates inside the kernel. -/
def pyStrLe : List Char → List Char → Bool
  | [], _ => true
  | _ :: _, [] => false
  | a :: as, b :: bs =>
    if a.val < b.val then true
    else if b.val < a.val then false
    else pyStrLe as bs

/-- Python's `sorted` on strings: insertion sort under `pyStrLe`. -/
def insertSorted (x : String) : List String → List String
  | [] => [x]
  | y :: ys =>
      if pyStrLe x.toList y.toList then x :: y :: ys
      else y :: insertSorted x ys

def pySorted : List String → List String
  | [] => []
  | x :: xs => insertSorted x (pySorted xs)

/-- One cache.py `metadata` record.  `file_path`, `file_size`, `images` and
`timestamp` are stored by `update` but never read back by `is_valid`, so
only the fields `is_valid` reads are carried; `sha256` is optional because
`is_valid` re-checks its presence (`if not expected_sha256`). -/
structure CacheEntry where
  sha256 : Option (List Nat)
  mtime : Nat
  deriving Repr, DecidableEq

/-- Embedding of `CacheManager.get_cache_key` (cache.py lines 76-91): a
SHA-256 of the canonical JSON of the sorted image list and the output
basename, modelled by the hashed data rendered to a string (the code relies
on the hash being collision-free on these strings). -/
def get_cache_key (images : List String) (output_path : String) : String :=
  String.intercalate "," (pySorted images) ++ "|" ++ pyBasename output_path

/-- Embedding of `CacheManager.is_valid` (cache.py lines 93-143), failing
closed: a missing file, a missing entry, a missing stored digest, an mtime
mismatch or a recomputed-digest mismatch all give `false`; only an exact
mtime match followed by an exact digest recomputation match gives
`true`. -/
def is_valid (fs : CacheFS) (metadata : List (String × CacheEntry))
    (file_path : String) (images : List String) : Bool :=
  match fs file_path with
  | none => false
  | some f =>
    match metadata.lookup (get_cache_key images file_path) with
    | none => false
    | some info =>
      match info.sha256 with
      | none => false
      | some expected =>
        if f.mtime ≠ info.mtime then false
        else if sha256_file f ≠ expected then false
        else true

/-- Observable packaging actions of `_compress_images`. -/
inductive PackEvent where
  | removeExistingTar (path : String)
  | saveImages (images : List String) (path : String)
  deriving Repr, DecidableEq

/-- Embedding of `Orchestrator._compress_images` (orchestrator.py lines
105-131).  The body removes any tar already at `output_tar` (lines 114-116)
and then calls `runtime.save_images` unconditionally; no branch reads the
Content Cache — the orchestrator never constructs a `CacheManager`, and its
`__init__` does not even accept the `skip_cache` / `clear_cache` /
`no_cache` keywords that `cli.py`'s `deploy` passes to it.  The result is
`true` exactly when `save_images` reports success and the tar exists
afterwards (line 124); the emitted events are identical on every path
because both early returns occur after the `save_images` call. -/
def compress_images (fs : CacheFS) (images : List String)
    (output_tar : String) (saveImagesOk existsAfterSave : Bool) :
    Bool × List PackEvent :=
  (saveImagesOk && existsAfterSave,
    (if (fs output_tar).isSome then [PackEvent.removeExistingTar output_tar]
     else []) ++ [PackEvent.saveImages images output_tar])

/-- Embedding of the transfer invocation made by
`Orchestrator._transfer_to_target` (orchestrator.py lines 152 and 166):
`self.transport.transfer_file(local_tar, target, remote_tar)` — both the
single-target branch and the pool worker pass neither `skip_if_exists`
(which therefore defaults to `False`) nor a progress callback, and no code
on the transfer path constructs or consults a `ResumeManager`. -/
def orchestrator_transfer_call (env : TransferEnv) (local_tar : String)
    (target : RemoteHost) (remote_tar : String) : Bool × List WriteOp :=
  transfer_file env local_tar target remote_tar false

/-! ## Theorems for claims C6, C7, C10 -/

/-- C6, counterexample: the claim asserts that a connection-level failure
during the existence check "is propagated or logged distinctly from 'file
absent' instead of being reported as non-existence".  At the concrete input
where `_get_client` raises "Connection refused", `file_exists_remote`
returns `false` — exactly the same non-existence report as the file-absent
case — and, being total, propagates nothing. -/
theorem exists_check_conn_failure_reported_as_absent :
    (file_exists_remote (.connFailure "Connection refused")).fst = false ∧
    (file_exists_remote (.connFailure "Connection refused")).fst =
      (file_exists_remote (.statResult .ioError)).fst := by
  decide

/-- C6, amended: `file_exists_remote` returns `false` without raising when
the remote path cannot be stat-ed, and a connection-level failure is likewise
caught and reported as non-existence (`false`) rather than propagated — but
it emits a debug log record naming the error, which the silent file-absent
path never does. -/
theorem exists_check_absent_and_conn_failure_both_false_with_distinct_log :
    file_exists_remote (.statResult .ioError) = (false, []) ∧
    ∀ m : String,
      (file_exists_remote (.connFailure m)).fst = false ∧
      (file_exists_remote (.connFailure m)).snd ≠ [] := by
  refine ⟨rfl, fun m => ⟨rfl, ?_⟩⟩
  simp [file_exists_remote]

/-- C7: whenever the pre-check reports that the remote path exists,
`transfer_file` with `skip_if_exists = true` returns `true` and issues zero
write operations, and the result is the same for every local and remote file
content — existence alone is the skip signal, content equality is never
consulted. -/
theorem transfer_skip_if_exists_zero_writes (env : TransferEnv)
    (localPath : String) (rh : RemoteHost) (remotePath : String)
    (hex : (file_exists_remote env.existsCheck).fst = true) :
    transfer_file env localPath rh remotePath true = (true, []) ∧
    ∀ lc rc : List Nat,
      transfer_file
        { env with localContent := lc, remoteContent := rc }
        localPath rh remotePath true = (true, []) := by
  constructor
  · simp [transfer_file, hex]
  · intro lc rc
    simp [transfer_file, hex]

/-- C7 witness: a concrete environment in which the remote archive exists;
the skip branch fires and no write operation is issued. -/
theorem transfer_skip_if_exists_zero_writes_witness :
    transfer_file
      { existsCheck := .statResult .found, connectOk := true,
        remoteDirPresent := false, makedirsOk := true, putOk := true,
        localContent := [1, 2, 3], remoteContent := [9, 9] }
      "/tmp/images.tar"
      { host := "h1", user := "ubuntu", port := 22 }
      "/tmp/images.tar" true = (true, []) :=
  (transfer_skip_if_exists_zero_writes
      { existsCheck := .statResult .found, connectOk := true,
        remoteDirPresent := false, makedirsOk := true, putOk := true,
        localContent := [1, 2, 3], remoteContent := [9, 9] }
      "/tmp/images.tar"
      { host := "h1", user := "ubuntu", port := 22 }
      "/tmp/images.tar" (by decide)).1

/-- C10: `execute_remote` never raises — it is a total function of the
execution outcome — returning the remote exit status, stdout and stderr
verbatim on completion, and the fixed triple `(1, "", message)` when any
transport-level step raises; consequently a transport failure with message
`m` is indistinguishable from a remote command that exits 1 with empty
stdout and `m` on stderr. -/
theorem execute_remote_total_and_error_shape :
    (∀ (rc : Int) (o e : String),
        execute_remote (.completed rc o e) = (rc, o, e)) ∧
    (∀ m : String, execute_remote (.raised m) = (1, "", m)) ∧
    (∀ m : String,
        execute_remote (.raised m) = execute_remote (.completed 1 "" m)) := by
  refine ⟨fun rc o e => rfl, fun m => rfl, fun m => rfl⟩

/-- Helper: `clear_progress` really removes the entry — looking up the
erased key afterwards finds nothing. -/
theorem lookup_eraseResumeKey (key : String) (store : ResumeStore) :
    (eraseResumeKey key store).lookup key = none := by
  induction store with
  | nil => rfl
  | cons kv rest ih =>
    by_cases h : kv.fst = key
    · simp [eraseResumeKey, List.filter, h] at ih ⊢
      exact ih
    · simp only [eraseResumeKey, List.filter] at ih ⊢
      have hb : (kv.fst != key) = true := by
        simp [bne, h]
      rw [hb]
      simp only [List.lookup]
      have : (key == kv.fst) = false := by
        simp [BEq.beq]
        exact fun hk => h hk.symm
      rw [this]
      exact ih

/-- C8: whenever the live local file's size or modification time differs
from the values recorded in the resume entry, `get_progress` returns `none`
and deletes the stored entry — the recorded byte counts (in particular a
previously complete `transferred_bytes = total_bytes`) play no part. -/
theorem get_progress_invalidates_changed_file (fs : LocalFS)
    (store : ResumeStore) (localPath remoteHost remotePath : String)
    (e : ResumeEntry) (sz mt : Nat)
    (hlook : store.lookup (get_resume_key localPath remoteHost remotePath)
      = some e)
    (hfs : fs localPath = some (sz, mt))
    (hchanged : sz ≠ e.file_size ∨ mt ≠ e.local_mtime) :
    (get_progress fs store localPath remoteHost remotePath).fst = none ∧
    ((get_progress fs store localPath remoteHost remotePath).snd).lookup
        (get_resume_key localPath remoteHost remotePath) = none := by
  have hgp : get_progress fs store localPath remoteHost remotePath =
      if e.file_size ≠ sz then
        (none,
          eraseResumeKey (get_resume_key localPath remoteHost remotePath) store)
      else if e.local_mtime ≠ mt then
        (none,
          eraseResumeKey (get_resume_key localPath remoteHost remotePath) store)
      else (some e, store) := by
    simp only [get_progress, hlook, hfs]
  rcases hchanged with hsz | hmt
  · have hne : e.file_size ≠ sz := fun h => hsz h.symm
    rw [hgp, if_pos hne]
    exact ⟨rfl, lookup_eraseResumeKey _ _⟩
  · by_cases hne : e.file_size ≠ sz
    · rw [hgp, if_pos hne]
      exact ⟨rfl, lookup_eraseResumeKey _ _⟩
    · have hmt' : e.local_mtime ≠ mt := fun h => hmt h.symm
      rw [hgp, if_neg hne, if_pos hmt']
      exact ⟨rfl, lookup_eraseResumeKey _ _⟩

/-- C8 witness: a concrete store holding a previously complete transfer
(`transferred_bytes = total_bytes = 100`, recorded size 100) against a live
file whose size is now 200; `get_progress` returns `none` and the entry is
gone from the store. -/
theorem get_progress_invalidates_changed_file_witness :
    (get_progress
        (fun p => if p = "a" then some (200, 5) else none)
        [(get_resume_key "a" "h" "r",
          { local_path := "a", remote_host := "h", remote_path := "r",
            transferred_bytes := 100, total_bytes := 100,
            file_size := 100, local_mtime := 5 })]
        "a" "h" "r").fst = none ∧
    ((get_progress
        (fun p => if p = "a" then some (200, 5) else none)
        [(get_resume_key "a" "h" "r",
          { local_path := "a", remote_host := "h", remote_path := "r",
            transferred_bytes := 100, total_bytes := 100,
            file_size := 100, local_mtime := 5 })]
        "a" "h" "r").snd).lookup (get_resume_key "a" "h" "r") = none :=
  get_progress_invalidates_changed_file
    (fun p => if p = "a" then some (200, 5) else none)
    [(get_resume_key "a" "h" "r",
      { local_path := "a", remote_host := "h", remote_path := "r",
        transferred_bytes := 100, total_bytes := 100,
        file_size := 100, local_mtime := 5 })]
    "a" "h" "r"
    { local_path := "a", remote_host := "h", remote_path := "r",
      transferred_bytes := 100, total_bytes := 100,
      file_size := 100, local_mtime := 5 }
    200 5 (by decide) (by decide) (Or.inl (by decide))

/-- C9: `cleanup` removes nothing, ever — in particular a resume file whose
age exceeds the seven-day limit survives maintenance.  The loop body's first
expression `os.time.time()` raises `AttributeError` (the `os` module has no
attribute `time`), the enclosing `except` swallows it, and no unlink is ever
reached, contradicting the function's own docstring ("Clean up old resume
files") and the CLI help text ("Remove resume files older than 7 days"). -/
theorem cleanup_never_purges (files : List (String × Nat)) :
    cleanup files = files := by
  cases files with
  | nil => rfl
  | cons kv rest => rfl

/-- Association-list helper: looking up the key just inserted finds it. -/
theorem lookup_cons_self_str {β : Type} (k : String) (v : β)
    (l : List (String × β)) : List.lookup k ((k, v) :: l) = some v := by
  simp [List.lookup]

/-- Association-list helper: a cons with a different key is transparent. -/
theorem lookup_cons_ne_str {β : Type} {k key : String} (v : β)
    (l : List (String × β)) (h : k ≠ key) :
    List.lookup k ((key, v) :: l) = List.lookup k l := by
  simp [List.lookup, beq_false_of_ne h]

/-- Invariant tying the establishment log to the cache: a key has been
connected exactly once if it is cached, and never otherwise. -/
def ConnInv (st : SSHClients) : Prop :=
  ∀ k : String,
    st.connLog.count k = if (st.clients.lookup k).isSome then 1 else 0

theorem connInv_init : ConnInv SSHClients.init := by
  intro k
  simp [SSHClients.init]

theorem connInv_get_client (connect : Nat → String → PyResult Unit)
    (st : SSHClients) (rh : RemoteHost) (h : ConnInv st) :
    ConnInv (get_client connect st rh).snd := by
  cases hl : st.clients.lookup (resolvedKey rh) with
  | some c =>
    simp only [get_client, hl]
    exact h
  | none =>
    cases hc : connect st.attempts (resolvedKey rh) with
    | exc m =>
      simp only [get_client, hl, hc]
      exact h
    | ok u =>
      intro k
      simp only [get_client, hl, hc]
      by_cases hk : k = resolvedKey rh
      · subst hk
        have h0 := h (resolvedKey rh)
        rw [hl] at h0
        simp only [Option.isSome_none, Bool.false_eq_true, if_false] at h0
        rw [lookup_cons_self_str]
        simp [List.count_cons_self, h0]
      · have hk2 : resolvedKey rh ≠ k := fun hkk => hk hkk.symm
        have h0 := h k
        rw [lookup_cons_ne_str _ _ hk]
        simp [List.count_cons, beq_false_of_ne hk, beq_false_of_ne hk2, h0]

theorem connInv_run (connect : Nat → String → PyResult Unit)
    (rhs : List RemoteHost) :
    ∀ st : SSHClients, ConnInv st →
      ConnInv (run_get_clients connect st rhs).snd := by
  induction rhs with
  | nil => intro st h; simpa [run_get_clients] using h
  | cons rh rest ih =>
    intro st h
    simp only [run_get_clients]
    exact ih _ (connInv_get_client connect st rh h)

/-- C5: session acquisition is idempotent per resolved (hostname, port) key.
First conjunct: over any serialized sequence of `_get_client` calls (the
lock makes every concurrent interleaving such a sequence) starting from the
fresh transport, at most one connection is ever established for any given
key.  Second conjunct: once a call has returned a client for a key, every
later call for that key returns the very same cached client and leaves the
state untouched — no second live session is created. -/
theorem get_client_idempotent_per_key
    (connect : Nat → String → PyResult Unit) (rhs : List RemoteHost)
    (k : String) (st : SSHClients) (rh : RemoteHost) (c : Nat)
    (hcached : st.clients.lookup (resolvedKey rh) = some c) :
    ((run_get_clients connect SSHClients.init rhs).snd).connLog.count k ≤ 1 ∧
    get_client connect st rh = (.ok c, st) := by
  constructor
  · have hinv := connInv_run connect rhs SSHClients.init connInv_init k
    rw [hinv]
    by_cases hs :
        (((run_get_clients connect SSHClients.init rhs).snd).clients.lookup
          k).isSome
    · simp [hs]
    · simp [hs]
  · simp only [get_client, hcached]

/-- C5 witness: three consecutive requests for the same host against a
connect environment that always succeeds — the establishment log holds one
entry, and a state already caching client `0` for the key returns exactly
that client unchanged. -/
theorem get_client_idempotent_per_key_witness :
    ((run_get_clients (fun _ _ => .ok ())
        SSHClients.init
        [{ host := "h1", user := "u", port := 22 },
         { host := "h1", user := "u", port := 22 },
         { host := "h1", user := "u", port := 22 }]).snd).connLog.count
      "h1:22" ≤ 1 ∧
    get_client (fun _ _ => .ok ())
      { clients := [("h1:22", 0)], nextClientId := 1,
        connLog := ["h1:22"], attempts := 1 }
      { host := "h1", user := "u", port := 22 } =
      (.ok 0,
        { clients := [("h1:22", 0)], nextClientId := 1,
          connLog := ["h1:22"], attempts := 1 }) :=
  get_client_idempotent_per_key (fun _ _ => .ok ())
    [{ host := "h1", user := "u", port := 22 },
     { host := "h1", user := "u", port := 22 },
     { host := "h1", user := "u", port := 22 }]
    "h1:22"
    { clients := [("h1:22", 0)], nextClientId := 1,
      connLog := ["h1:22"], attempts := 1 }
    { host := "h1", user := "u", port := 22 } 0 (by decide)

/-- C3: with `skip_host_verification` NOT enabled, `_get_client` installs
`AutoAddPolicy`, so a host whose key is not in known-hosts is accepted —
silently added to known hosts — not rejected; the relaxed opt-in installs
`WarningPolicy` (accept with a warning).  The claimed strict mode does not
exist in the code. -/
theorem strict_mode_accepts_unknown_host_key :
    unknown_host_key_disposition (missing_host_key_policy false) =
      .acceptedSilently ∧
    unknown_host_key_disposition (missing_host_key_policy false) ≠
      .rejected ∧
    unknown_host_key_disposition (missing_host_key_policy true) =
      .acceptedWithWarning := by
  decide

/-- Helper: the `all_success` collection loop equals the conjunction of
every collected flag. -/
theorem foldl_and_eq_all (l : List (String × Bool)) :
    ∀ b : Bool,
      l.foldl (fun acc r => acc && r.snd) b = (b && l.all (fun r => r.snd)) := by
  induction l with
  | nil => intro b; simp
  | cons x xs ih => intro b; simp [ih, Bool.and_assoc]

/-- C4: in a fan-out over more than one target, one `(host, success)` pair
is collected for every target — the i-th result is exactly the i-th
target's worker outcome, so precisely the failing targets appear as
failures and every target is attempted regardless of other targets'
outcomes — and the stage's overall result is `true` exactly when every
per-target result is `true` (the logical AND, with no early exit). -/
theorem fanout_attempts_every_target_and_aggregates_and
    (outcome : RemoteHost → PyResult Bool) (targets : List RemoteHost)
    (hn : 1 < targets.length) :
    (fanout_results outcome targets).length = targets.length ∧
    (∀ i : Nat,
        (fanout_results outcome targets).get? i
          = (targets.get? i).map (transfer_worker outcome)) ∧
    (fanout_all_success outcome targets = true ↔
        ∀ r ∈ fanout_results outcome targets, r.snd = true) := by
  refine ⟨List.length_map _ _, fun i => ?_, ?_⟩
  · simp [fanout_results]
  · unfold fanout_all_success
    rw [foldl_and_eq_all]
    simp [List.all_eq_true]

/-- C4 witness: three targets where the second fails with a connectivity
exception; the fan-out collects three results, each target's own outcome at
its own index, and the aggregate is the AND of all three. -/
theorem fanout_attempts_every_target_and_aggregates_and_witness :
    1 < ([{ host := "t1", user := "u", port := 22 },
          { host := "t2", user := "u", port := 22 },
          { host := "t3", user := "u", port := 22 }] :
            List RemoteHost).length ∧
    ((fanout_results
        (fun t => if t.host = "t2" then .exc "unreachable" else .ok true)
        [{ host := "t1", user := "u", port := 22 },
         { host := "t2", user := "u", port := 22 },
         { host := "t3", user := "u", port := 22 }]).length =
      ([{ host := "t1", user := "u", port := 22 },
        { host := "t2", user := "u", port := 22 },
        { host := "t3", user := "u", port := 22 }] :
          List RemoteHost).length ∧
     (∀ i : Nat,
        (fanout_results
            (fun t => if t.host = "t2" then .exc "unreachable" else .ok true)
            [{ host := "t1", user := "u", port := 22 },
             { host := "t2", user := "u", port := 22 },
             { host := "t3", user := "u", port := 22 }]).get? i
          = (([{ host := "t1", user := "u", port := 22 },
               { host := "t2", user := "u", port := 22 },
               { host := "t3", user := "u", port := 22 }] :
                  List RemoteHost).get? i).map
              (transfer_worker
                (fun t => if t.host = "t2" then .exc "unreachable"
                          else .ok true))) ∧
     (fanout_all_success
          (fun t => if t.host = "t2" then .exc "unreachable" else .ok true)
          [{ host := "t1", user := "u", port := 22 },
           { host := "t2", user := "u", port := 22 },
           { host := "t3", user := "u", port := 22 }] = true ↔
        ∀ r ∈ fanout_results
            (fun t => if t.host = "t2" then .exc "unreachable" else .ok true)
            [{ host := "t1", user := "u", port := 22 },
             { host := "t2", user := "u", port := 22 },
             { host := "t3", user := "u", port := 22 }], r.snd = true)) :=
  ⟨by decide,
    fanout_attempts_every_target_and_aggregates_and
      (fun t => if t.host = "t2" then .exc "unreachable" else .ok true)
      [{ host := "t1", user := "u", port := 22 },
       { host := "t2", user := "u", port := 22 },
       { host := "t3", user := "u", port := 22 }] (by decide)⟩

/-- C1 (code bug): at a concrete run with images `["x:1","x:2"]` and output
`/tmp/out.tar` where the archive exists and the Content Cache records its
exact digest and modification time — `is_valid` returns `true` —
`_compress_images` still deletes the existing archive and calls
`runtime.save_images`: the packaging stage is never skipped, because the
orchestrator never consults the cache (and `Orchestrator.__init__` does not
even accept the cache keywords `cli.py` passes, so the documented
cache-skipping deploy path cannot run at all). -/
theorem compress_repackages_despite_valid_cache :
    is_valid
      (fun p => if p = "/tmp/out.tar"
                then some { content := [1, 2], mtime := 7 } else none)
      [(get_cache_key ["x:1", "x:2"] "/tmp/out.tar",
        { sha256 := some [1, 2], mtime := 7 })]
      "/tmp/out.tar" ["x:1", "x:2"] = true ∧
    compress_images
      (fun p => if p = "/tmp/out.tar"
                then some { content := [1, 2], mtime := 7 } else none)
      ["x:1", "x:2"] "/tmp/out.tar" true true
      = (true, [PackEvent.removeExistingTar "/tmp/out.tar",
                PackEvent.saveImages ["x:1", "x:2"] "/tmp/out.tar"]) := by
  decide

/-- C2 (code bug): the transfer stage's invocation of `transfer_file`
passes `skip_if_exists = False` (the Python default — neither branch of
`_transfer_to_target` supplies it) and consults no resume ledger, so even
when the remote archive already exists and its content equals the local
content, the archive is re-streamed: a `put` write is issued; and the
writes are identical when the remote file is absent — the skip-if-exists
signal is never read.  (The repo's own tests, test_orchestrator.py lines
43-58, assert that `transfer_file` receives `skip_if_exists=True` whenever
`no_cache` is false.) -/
theorem transfer_stage_streams_despite_existing_remote :
    orchestrator_transfer_call
      { existsCheck := .statResult .found, connectOk := true,
        remoteDirPresent := true, makedirsOk := true, putOk := true,
        localContent := [1, 2], remoteContent := [1, 2] }
      "/tmp/images.tar" { host := "h1", user := "u", port := 22 }
      "/tmp/images.tar"
      = (true, [WriteOp.put "/tmp/images.tar" "/tmp/images.tar"]) ∧
    orchestrator_transfer_call
      { existsCheck := .statResult .ioError, connectOk := true,
        remoteDirPresent := true, makedirsOk := true, putOk := true,
        localContent := [1, 2], remoteContent := [1, 2] }
      "/tmp/images.tar" { host := "h1", user := "u", port := 22 }
      "/tmp/images.tar"
      = (true, [WriteOp.put "/tmp/images.tar" "/tmp/images.tar"]) := by
  decide

end Outrider
